import Mathlib

/-!
# ThirdOp decision-support pipeline: a shallow embedding

This file embeds the ThirdOp clinical decision-support scoring pipeline
(`src/backend/services/thirdopController.js` — decision-engine document — together
with the orchestration layer of `src/backend/services/differentialService.js` and the
rule-based fallback `generateFallbackDifferential` of `src/backend/services/llmService.js`)
and proves the frozen claims about it.

Modelling conventions:
* JavaScript numbers are modelled as `ℚ` (the pipeline performs only comparisons,
  additions, multiplications by constants, `min`/`max`, and final two-decimal rounding);
  `null`/`undefined` numeric fields are `Option ℚ` with `none`.
* The `MLPrediction` data model (spec section 3) fixes `probabilities` to a length-2 array
  `[pNegative, pPositive]`; the embedding uses a pair `ℚ × ℚ`.
* String-typed tags (`riskTier`, `decision`, `mlSignal`, …) keep their JavaScript `String`
  type so that dictionary lookups with default values are modelled exactly.
* Interpolated human-readable message strings are kept structurally (same branches, same
  fixed prefixes); the decimal formatting of embedded numbers is approximated by `toString`,
  which no claim depends on.
* External collaborators (the narrative generator and the MedGemma clinical-reasoning
  generator, spec section 6: async functions that may throw) are modelled by passing the
  outcome of each call (`Except String _`) as a parameter to the orchestrator; the
  persistence store is passed and returned explicitly.  Wall-clock fields (`timestamp`,
  `generatedAt`) are omitted.
-/

namespace ThirdOp

/-- JavaScript guard `v !== null && v !== undefined && p(v)` for a numeric field. -/
def presentAnd (v : Option ℚ) (p : ℚ → Bool) : Bool :=
  match v with
  | some x => p x
  | none => false

/-- `const clamp01 = (n) => Math.max(0, Math.min(1, n));` -/
def clamp01 (n : ℚ) : ℚ := max 0 (min 1 n)

/-- JavaScript `Math.round` (round half towards positive infinity). -/
def jsRound (x : ℚ) : ℤ := ⌊x + 1/2⌋

/-- `Math.round(x * 100) / 100` — round to two decimal places. -/
def roundTo2 (x : ℚ) : ℚ := ((jsRound (x * 100) : ℤ) : ℚ) / 100

/-- `Number.prototype.toFixed(2)`, used only inside a rationale string (formatting
approximated: the claim only needs the rationale to be a non-empty string). -/
def toFixed2 (q : ℚ) : String := toString (jsRound (q * 100))

/-! ## Input shapes accepted by `normalizeInput`

`normalizeInput` (thirdopController.js, decision-engine document) accepts several
historical field-name spellings with `??`-fallback chains.  Each accepted spelling is one
optional field; Lean field names replace the JavaScript quoted keys
(`CREATININE_mgdl` stands for `'CREATININE (mg/dL)'`, and so on). -/

structure RawReportData where
  CREATININE_mgdl : Option ℚ := none
  CREATININE : Option ℚ := none
  creatinine : Option ℚ := none
  creatinineLevel : Option ℚ := none
  creatineLevel : Option ℚ := none
  UREA_mgdl : Option ℚ := none
  UREA : Option ℚ := none
  urea : Option ℚ := none
  ureaLevel : Option ℚ := none
  ALBUMIN_gdl : Option ℚ := none
  ALBUMIN : Option ℚ := none
  albumin : Option ℚ := none
  albuminLevel : Option ℚ := none
  URIC_ACID_mgdl : Option ℚ := none
  URIC_ACID : Option ℚ := none
  uric_acid : Option ℚ := none
  uricAcid : Option ℚ := none
  eGFR : Option ℚ := none
  EGFR : Option ℚ := none
  egfr : Option ℚ := none
  ACR : Option ℚ := none
  acr : Option ℚ := none

/-- Raw `mlPrediction` object.  `probabilities` is `none` when the field is absent
(`mlPrediction.probabilities || [0.5, 0.5]`; a present array is always truthy);
`status` is `none` when absent (the only falsy `String` is `""`). -/
structure RawMLPrediction where
  prediction : Option ℤ := none
  probabilities : Option (ℚ × ℚ) := none
  status : Option String := none

/-- Argument of `analyzeThirdOpCase`; `reportData` and `mlPrediction` may be absent
(`input.reportData || {}`, `input.mlPrediction || {}`). -/
structure EngineInput where
  reportData : Option RawReportData := none
  mlPrediction : Option RawMLPrediction := none

/-- Normalized numeric report data used by the engine. -/
structure ReportData where
  creatinine : Option ℚ := none
  urea : Option ℚ := none
  albumin : Option ℚ := none
  uricAcid : Option ℚ := none
  egfr : Option ℚ := none
  acr : Option ℚ := none

/-- Normalized `mlPrediction`: probabilities default to `[0.5, 0.5]`, status to
`'success'`. -/
structure MLPrediction where
  prediction : Option ℤ
  probabilities : ℚ × ℚ
  status : String

structure NormalizedInput where
  reportData : ReportData
  mlPrediction : MLPrediction

/-- `normalizeInput` from the decision-engine document: `??`-fallback chains over the
accepted spellings; `mlPrediction.probabilities || [0.5, 0.5]`;
`mlPrediction.status || 'success'` (the falsy strings being only `""`). -/
def normalizeInput (input : EngineInput) : NormalizedInput :=
  let reportData := input.reportData.getD {}
  let mlPrediction := input.mlPrediction.getD {}
  { reportData :=
      { creatinine := reportData.CREATININE_mgdl <|> reportData.CREATININE <|>
          reportData.creatinine <|> reportData.creatinineLevel <|> reportData.creatineLevel
        urea := reportData.UREA_mgdl <|> reportData.UREA <|> reportData.urea <|>
          reportData.ureaLevel
        albumin := reportData.ALBUMIN_gdl <|> reportData.ALBUMIN <|> reportData.albumin <|>
          reportData.albuminLevel
        uricAcid := reportData.URIC_ACID_mgdl <|> reportData.URIC_ACID <|>
          reportData.uric_acid <|> reportData.uricAcid
        egfr := reportData.eGFR <|> reportData.EGFR <|> reportData.egfr
        acr := reportData.ACR <|> reportData.acr }
    mlPrediction :=
      { prediction := mlPrediction.prediction
        probabilities := mlPrediction.probabilities.getD (1/2, 1/2)
        status :=
          match mlPrediction.status with
          | some s => if s = "" then "success" else s
          | none => "success" } }

/-! ## Clinical evaluation -/

/-- One entry of `CLINICAL_RANGES`. -/
structure ClinicalRange where
  min : Option ℚ
  max : Option ℚ
  criticalHigh : Option ℚ
  criticalLow : Option ℚ

/-- `CLINICAL_RANGES` lookup (an absent key yields `none`, as JavaScript property access
yields `undefined`). -/
def CLINICAL_RANGES (parameter : String) : Option ClinicalRange :=
  if parameter = "CREATININE" then
    some { min := some 0.6, max := some 1.2, criticalHigh := some 2.5, criticalLow := none }
  else if parameter = "UREA" then
    some { min := some 7, max := some 20, criticalHigh := some 50, criticalLow := none }
  else if parameter = "ALBUMIN" then
    some { min := some 3.5, max := some 5.0, criticalHigh := none, criticalLow := some 2.5 }
  else if parameter = "eGFR" then
    some { min := some 60, max := none, criticalHigh := none, criticalLow := some 30 }
  else if parameter = "ACR" then
    some { min := none, max := some 30, criticalHigh := some 300, criticalLow := none }
  else none

structure ParamEval where
  isAbnormal : Bool
  isCritical : Bool
  message : Option String

/-- `${range.min}-${range.max || 'N/A'}` rendered for a message string. -/
def rangeText (range : ClinicalRange) : String :=
  (match range.min with | some m => toString m | none => "null") ++ "-" ++
  (match range.max with | some m => if m = 0 then "N/A" else toString m | none => "N/A")

/-- `evaluateClinicalParameter` from the decision-engine document. -/
def evaluateClinicalParameter (parameter : String) (value : Option ℚ) : ParamEval :=
  match value with
  | none => { isAbnormal := false, isCritical := false, message := none }
  | some v =>
    match CLINICAL_RANGES parameter with
    | none => { isAbnormal := false, isCritical := false, message := none }
    | some range =>
      if presentAnd range.min (fun m => decide (v < m)) then
        if presentAnd range.criticalLow (fun c => decide (v ≤ c)) then
          { isAbnormal := true, isCritical := true,
            message := some (parameter ++ ": " ++ toString v ++ " (critical low, normal: " ++
              rangeText range ++ ")") }
        else
          { isAbnormal := true, isCritical := false,
            message := some (parameter ++ ": " ++ toString v ++ " (low, normal: " ++
              rangeText range ++ ")") }
      else if presentAnd range.max (fun m => decide (m < v)) then
        if presentAnd range.criticalHigh (fun c => decide (c ≤ v)) then
          { isAbnormal := true, isCritical := true,
            message := some (parameter ++ ": " ++ toString v ++ " (critical high, normal: " ++
              rangeText range ++ ")") }
        else
          { isAbnormal := true, isCritical := false,
            message := some (parameter ++ ": " ++ toString v ++ " (high, normal: " ++
              rangeText range ++ ")") }
      else { isAbnormal := false, isCritical := false, message := none }

structure EgfrEval where
  stage : Option String
  isAbnormal : Bool
  isCritical : Bool
  message : Option String

/-- `evaluateEGFR`: five-tier CKD staging. -/
def evaluateEGFR (egfr : Option ℚ) : EgfrEval :=
  match egfr with
  | none => { stage := none, isAbnormal := false, isCritical := false, message := none }
  | some v =>
    if 60 ≤ v then
      { stage := some "normal", isAbnormal := false, isCritical := false, message := none }
    else if 45 ≤ v then
      { stage := some "stage_3a", isAbnormal := true, isCritical := false,
        message := some ("eGFR: " ++ toString v ++ " (Stage 3a CKD, normal: >=60)") }
    else if 30 ≤ v then
      { stage := some "stage_3b", isAbnormal := true, isCritical := true,
        message := some ("eGFR: " ++ toString v ++ " (Stage 3b CKD, normal: >=60)") }
    else if 15 ≤ v then
      { stage := some "stage_4", isAbnormal := true, isCritical := true,
        message := some ("eGFR: " ++ toString v ++ " (Stage 4 CKD, normal: >=60)") }
    else
      { stage := some "stage_5", isAbnormal := true, isCritical := true,
        message := some ("eGFR: " ++ toString v ++ " (Stage 5 CKD, normal: >=60)") }

structure AcrEval where
  classification : Option String
  isAbnormal : Bool
  isCritical : Bool
  message : Option String

/-- `evaluateACR`: three-tier proteinuria classification. -/
def evaluateACR (acr : Option ℚ) : AcrEval :=
  match acr with
  | none => { classification := none, isAbnormal := false, isCritical := false, message := none }
  | some v =>
    if v < 30 then
      { classification := some "normal", isAbnormal := false, isCritical := false,
        message := none }
    else if v ≤ 300 then
      { classification := some "microalbuminuria", isAbnormal := true, isCritical := false,
        message := some ("ACR: " ++ toString v ++ " (microalbuminuria, normal: <30)") }
    else
      { classification := some "macroalbuminuria", isAbnormal := true, isCritical := true,
        message := some ("ACR: " ++ toString v ++ " (severe proteinuria, normal: <30)") }

structure Indicators where
  abnormalValues : List String
  criticalFlags : List String
deriving DecidableEq

structure ClinicalAssessment where
  clinicalRisk : String
  abnormalCount : ℕ
  criticalCount : ℕ
  indicators : Indicators

/-- `optMsg l m` appends message `m` to the accumulated list when present (the source
pushes `eval.message` after checking it). -/
def optMsg (l : List String) (m : Option String) : List String :=
  match m with
  | some s => l ++ [s]
  | none => l

/-- `stage.replace('_', ' ').toUpperCase()` for the eGFR critical flags. -/
def stageFlagText (stage : Option String) : String :=
  ((stage.getD "").replace "_" " ").toUpper

/-- The aggregation if-chain at the end of `assessClinicalRisk` (`let clinicalRisk =
'low'; if ... else if ... else if ...`), branch order kept exactly; factored out so the
aggregation can be reasoned about compositionally. -/
def clinicalRiskFromCounts (criticalCount abnormalCount : ℕ) : String :=
  if 2 ≤ criticalCount then "high"
  else if 1 ≤ criticalCount ∨ 2 ≤ abnormalCount then "medium"
  else if 1 ≤ abnormalCount then "low"
  else "low"

/-- `assessClinicalRisk` from the decision-engine document (sequential evaluation of
CREATININE, UREA, ALBUMIN, eGFR, ACR, then the aggregation if-chain, branch order kept). -/
def assessClinicalRisk (reportData : ReportData) : ClinicalAssessment :=
  let creatinineEval := evaluateClinicalParameter "CREATININE" reportData.creatinine
  let ureaEval := evaluateClinicalParameter "UREA" reportData.urea
  let albuminEval := evaluateClinicalParameter "ALBUMIN" reportData.albumin
  let egfrEval := evaluateEGFR reportData.egfr
  let acrEval := evaluateACR reportData.acr
  let abnormalCount : ℕ :=
    (if creatinineEval.isAbnormal then 1 else 0) + (if ureaEval.isAbnormal then 1 else 0) +
    (if albuminEval.isAbnormal then 1 else 0) + (if egfrEval.isAbnormal then 1 else 0) +
    (if acrEval.isAbnormal then 1 else 0)
  let criticalCount : ℕ :=
    (if creatinineEval.isAbnormal && creatinineEval.isCritical then 1 else 0) +
    (if ureaEval.isAbnormal && ureaEval.isCritical then 1 else 0) +
    (if albuminEval.isAbnormal && albuminEval.isCritical then 1 else 0) +
    (if egfrEval.isAbnormal && egfrEval.isCritical then 1 else 0) +
    (if acrEval.isAbnormal && acrEval.isCritical then 1 else 0)
  let abnormalValues : List String :=
    optMsg (optMsg (optMsg (optMsg (optMsg []
      (if creatinineEval.isAbnormal then creatinineEval.message else none))
      (if ureaEval.isAbnormal then ureaEval.message else none))
      (if albuminEval.isAbnormal then albuminEval.message else none))
      (if egfrEval.isAbnormal then egfrEval.message else none))
      (if acrEval.isAbnormal then acrEval.message else none)
  let criticalFlags : List String :=
    (if creatinineEval.isAbnormal && creatinineEval.isCritical then
        ["CREATININE > 2.5 mg/dL"] else []) ++
    (if ureaEval.isAbnormal && ureaEval.isCritical then ["UREA > 50 mg/dL"] else []) ++
    (if albuminEval.isAbnormal && albuminEval.isCritical then ["ALBUMIN < 2.5 g/dL"] else []) ++
    (if egfrEval.isAbnormal && egfrEval.isCritical then
      (if egfrEval.stage = some "stage_3b" ∨ egfrEval.stage = some "stage_4" ∨
          egfrEval.stage = some "stage_5" then
        ["eGFR < 45 (" ++ stageFlagText egfrEval.stage ++ ")"] else []) ++
      (if egfrEval.stage = some "stage_4" ∨ egfrEval.stage = some "stage_5" then
        ["eGFR < 30 (" ++ stageFlagText egfrEval.stage ++ ")"] else [])
     else []) ++
    (if acrEval.isAbnormal && acrEval.isCritical then ["ACR > 300 (severe proteinuria)"] else [])
  { clinicalRisk := clinicalRiskFromCounts criticalCount abnormalCount
    abnormalCount := abnormalCount
    criticalCount := criticalCount
    indicators := { abnormalValues := abnormalValues, criticalFlags := criticalFlags } }

/-! ## ML signal -/

structure MLAssessment where
  mlSignal : String
  mlRisk : String
  probability : ℚ

/-- `assessMLSignal` from the decision-engine document. -/
def assessMLSignal (mlPrediction : MLPrediction) : MLAssessment :=
  let positiveProbability := mlPrediction.probabilities.2
  let negativeProbability := mlPrediction.probabilities.1
  if mlPrediction.prediction = some 1 then
    if 0.8 ≤ positiveProbability then
      { mlSignal := "strong_high", mlRisk := "high", probability := positiveProbability }
    else if 0.6 ≤ positiveProbability then
      { mlSignal := "moderate", mlRisk := "medium", probability := positiveProbability }
    else
      { mlSignal := "weak", mlRisk := "low", probability := positiveProbability }
  else
    if 0.8 ≤ negativeProbability then
      { mlSignal := "strong_negative", mlRisk := "low", probability := negativeProbability }
    else
      { mlSignal := "uncertain_negative", mlRisk := "low", probability := negativeProbability }

/-! ## Fusion matrix, overrides, decision mapping -/

/-- `riskMatrix[mlSignal]?.[clinicalRisk]` — the nested object lookup; an absent key
yields `none`. -/
def riskMatrix (mlSignal clinicalRisk : String) : Option String :=
  if mlSignal = "strong_high" then
    if clinicalRisk = "high" then some "high"
    else if clinicalRisk = "medium" then some "high"
    else if clinicalRisk = "low" then some "medium"
    else none
  else if mlSignal = "moderate" then
    if clinicalRisk = "high" then some "high"
    else if clinicalRisk = "medium" then some "medium"
    else if clinicalRisk = "low" then some "medium"
    else none
  else if mlSignal = "weak" then
    if clinicalRisk = "high" then some "medium"
    else if clinicalRisk = "medium" then some "low"
    else if clinicalRisk = "low" then some "low"
    else none
  else if mlSignal = "strong_negative" then
    if clinicalRisk = "high" then some "low"
    else if clinicalRisk = "medium" then some "low"
    else if clinicalRisk = "low" then some "low"
    else none
  else if mlSignal = "uncertain_negative" then
    if clinicalRisk = "high" then some "medium"
    else if clinicalRisk = "medium" then some "low"
    else if clinicalRisk = "low" then some "low"
    else none
  else none

/-- `determineRiskTier`: matrix lookup with `|| 'low'` default. -/
def determineRiskTier (mlSignal clinicalRisk : String) : String :=
  (riskMatrix mlSignal clinicalRisk).getD "low"

/-- `applyExceptionRules`: the three short-circuit overrides on the risk tier. -/
def applyExceptionRules (reportData : ReportData) (currentRiskTier : String) : String :=
  if presentAnd reportData.egfr (fun v => decide (v < 30)) then "high"
  else if presentAnd reportData.acr (fun v => decide (300 < v)) then "high"
  else if presentAnd reportData.creatinine (fun v => decide (3.0 < v)) &&
      presentAnd reportData.egfr (fun v => decide (v < 45)) then "high"
  else currentRiskTier

/-- `mapRiskToDecision`: `decisionMap[riskTier] || 'monitor'`. -/
def mapRiskToDecision (riskTier : String) : String :=
  if riskTier = "low" then "monitor"
  else if riskTier = "medium" then "request_additional_tests"
  else if riskTier = "high" then "escalate"
  else "monitor"

/-- `applyDecisionExceptions`: the same three conditions, checked separately, forcing
`'escalate'`. -/
def applyDecisionExceptions (reportData : ReportData) (currentDecision : String) : String :=
  if presentAnd reportData.egfr (fun v => decide (v < 30)) then "escalate"
  else if presentAnd reportData.acr (fun v => decide (300 < v)) then "escalate"
  else if presentAnd reportData.creatinine (fun v => decide (3.0 < v)) &&
      presentAnd reportData.egfr (fun v => decide (v < 45)) then "escalate"
  else currentDecision

/-- `determineHumanEscalation`: five disjunctive rules. -/
def determineHumanEscalation (riskTier decision : String) (reportData : ReportData)
    (mlPrediction : MLPrediction) (criticalCount : ℕ) : Bool :=
  (riskTier = "high" && decision = "escalate") ||
  presentAnd reportData.egfr (fun v => decide (v < 30)) ||
  presentAnd reportData.acr (fun v => decide (300 < v)) ||
  (mlPrediction.prediction = some 1 && decide ((0.9 : ℚ) < mlPrediction.probabilities.2)) ||
  decide (2 ≤ criticalCount)

/-- The three-way agreement disjunction of `calculateConfidence`
(`(tier === 'high' && riskTier === 'high') || ... || ...`). -/
def tierAgrees (tier riskTier : String) : Bool :=
  (tier == "high" && riskTier == "high") ||
  (tier == "medium" && riskTier == "medium") ||
  (tier == "low" && riskTier == "low")

/-- `calculateConfidence`: ML-probability base, agreement bonus / conflict penalty,
critical bonus, clamp to [0.4, 1.0], round to two decimals.  The
`agreementBonus`/`conflictPenalty` variables are assigned by one if/else chain in the
source; each is written here as the same chain. -/
def calculateConfidence (mlAssessment : MLAssessment)
    (clinicalAssessment : ClinicalAssessment) (riskTier : String) : ℚ :=
  let baseConfidence := mlAssessment.probability
  let mlAgrees : Bool := tierAgrees mlAssessment.mlRisk riskTier
  let clinicalAgrees : Bool := tierAgrees clinicalAssessment.clinicalRisk riskTier
  let agreementBonus : ℚ :=
    if mlAgrees && clinicalAgrees then 0.1 else if mlAgrees || clinicalAgrees then 0.05 else 0
  let conflictPenalty : ℚ :=
    if mlAgrees && clinicalAgrees then 0 else if mlAgrees || clinicalAgrees then 0 else 0.2
  let criticalBonus : ℚ := min ((clinicalAssessment.criticalCount : ℚ) * 0.05) 0.1
  let confidence := baseConfidence + agreementBonus - conflictPenalty + criticalBonus
  let clamped := max 0.4 (min 1.0 confidence)
  roundTo2 clamped

/-! ## Ranked differentials -/

/-- One entry of the engine's `rankedDifferentials`. -/
structure DiffItem where
  condition : String
  confidence : ℚ
  rationale : String

/-- Parameters of `computeRankedDifferentials`. -/
structure DiffParams where
  igaProbability : ℚ
  acr : Option ℚ
  egfr : Option ℚ
  albumin : Option ℚ
  riskTier : String

/-- `const hasHeavyProteinuria = acr !== null && acr >= 300;` -/
def hasHeavyProteinuria (acr : Option ℚ) : Bool :=
  presentAnd acr (fun v => decide (300 ≤ v))

/-- `const hasModerateProteinuria = acr !== null && acr >= 30 && acr < 300;` -/
def hasModerateProteinuria (acr : Option ℚ) : Bool :=
  presentAnd acr (fun v => decide (30 ≤ v) && decide (v < 300))

/-- `const hasReducedEgfr = egfr !== null && egfr < 60;` -/
def hasReducedEgfr (egfr : Option ℚ) : Bool :=
  presentAnd egfr (fun v => decide (v < 60))

/-- `const hasSeverelyReducedEgfr = egfr !== null && egfr < 30;` -/
def hasSeverelyReducedEgfr (egfr : Option ℚ) : Bool :=
  presentAnd egfr (fun v => decide (v < 30))

/-- `const hasLowAlbumin = albumin !== null && albumin < 3.0;` -/
def hasLowAlbumin (albumin : Option ℚ) : Bool :=
  presentAnd albumin (fun v => decide (v < 3.0))

/-- Risk-tier boost constant: high +0.12, medium +0.07, otherwise +0.03. -/
def riskBoost (riskTier : String) : ℚ :=
  if riskTier = "high" then 0.12 else if riskTier = "medium" then 0.07 else 0.03

/-- IgA nephropathy score. -/
def igaScore (p : DiffParams) : ℚ :=
  clamp01 p.igaProbability +
  (if hasModerateProteinuria p.acr then 0.05 else 0) +
  (if hasHeavyProteinuria p.acr then 0.10 else 0) +
  (if hasReducedEgfr p.egfr then 0.05 else 0) +
  (if hasSeverelyReducedEgfr p.egfr then 0.05 else 0) +
  riskBoost p.riskTier

/-- Diabetic nephropathy score. -/
def diabeticScore (p : DiffParams) : ℚ :=
  0.25 +
  (if hasModerateProteinuria p.acr then 0.10 else 0) +
  (if hasHeavyProteinuria p.acr then 0.15 else 0) +
  (if hasReducedEgfr p.egfr then 0.10 else 0) +
  (if hasSeverelyReducedEgfr p.egfr then 0.10 else 0) +
  (if p.riskTier = "high" then 0.05 else 0)

/-- Hypertensive nephrosclerosis score. -/
def hypertensiveScore (p : DiffParams) : ℚ :=
  0.22 +
  (if hasReducedEgfr p.egfr then 0.15 else 0) +
  (if hasSeverelyReducedEgfr p.egfr then 0.10 else 0) +
  (if hasModerateProteinuria p.acr then -0.05 else 0) +
  (if hasHeavyProteinuria p.acr then -0.10 else 0) +
  (if p.riskTier = "high" then 0.05 else 0)

/-- Minimal change disease score. -/
def mcdScore (p : DiffParams) : ℚ :=
  0.20 +
  (if hasHeavyProteinuria p.acr then 0.25 else 0) +
  (if hasLowAlbumin p.albumin then 0.25 else 0) +
  (if hasSeverelyReducedEgfr p.egfr then -0.05 else 0)

/-- Other glomerulopathy score. -/
def otherGlomScore (p : DiffParams) : ℚ :=
  0.28 +
  (if hasModerateProteinuria p.acr then 0.10 else 0) +
  (if hasHeavyProteinuria p.acr then 0.15 else 0) +
  (if hasReducedEgfr p.egfr then 0.10 else 0) +
  (if clamp01 p.igaProbability < 0.55 then 0.08 else 0) +
  (if p.riskTier = "high" then 0.05 else 0)

/-- Rationale of the IgA item (template-literal interpolation; numeric formatting
approximated, quotation marks dropped). -/
def igaRationale (p : DiffParams) : String :=
  "Non-diagnostic differential considerations: driven by ML IgA probability (" ++
  toFixed2 (clamp01 p.igaProbability) ++ ")" ++
  (match p.acr with | some v => ", ACR " ++ toString v | none => "") ++
  (match p.egfr with | some v => ", eGFR " ++ toString v | none => "") ++
  (match p.albumin with | some v => ", albumin " ++ toString v | none => "") ++
  ", overall risk tier " ++ p.riskTier ++ "."

/-- The `items` array of `computeRankedDifferentials`, in declaration order. -/
def differentialItems (p : DiffParams) : List DiffItem :=
  [ { condition := "IgA nephropathy", confidence := clamp01 (igaScore p),
      rationale := igaRationale p },
    { condition := "Diabetic nephropathy", confidence := clamp01 (diabeticScore p),
      rationale := "Non-diagnostic differential considerations: proteinuria (ACR) and reduced eGFR can be compatible with diabetic kidney disease; no diabetes history is available in inputs, so this remains conservative." },
    { condition := "Hypertensive nephrosclerosis", confidence := clamp01 (hypertensiveScore p),
      rationale := "Non-diagnostic differential considerations: reduced eGFR with relatively lower proteinuria can be compatible with hypertensive nephrosclerosis; no blood pressure history is available in inputs." },
    { condition := "Minimal change disease", confidence := clamp01 (mcdScore p),
      rationale := "Non-diagnostic differential considerations: heavy proteinuria (high ACR) plus low serum albumin can be compatible with nephrotic-pattern diseases such as minimal change disease." },
    { condition := "Other glomerulopathy", confidence := clamp01 (otherGlomScore p),
      rationale := "Non-diagnostic differential considerations: proteinuria and/or reduced eGFR can reflect other glomerular diseases when the IgA-specific signal is not dominant." } ]

/-- The descending-by-confidence ordering used by the comparator
`(a, b) => b.confidence - a.confidence`. -/
def confGE (a b : DiffItem) : Prop := b.confidence ≤ a.confidence

instance : DecidableRel confGE :=
  fun a b => inferInstanceAs (Decidable (b.confidence ≤ a.confidence))

instance : IsTotal DiffItem confGE := ⟨fun a b => le_total b.confidence a.confidence⟩

instance : IsTrans DiffItem confGE := ⟨fun _ _ _ hab hbc => le_trans hbc hab⟩

/-- `items.sort((a, b) => b.confidence - a.confidence)`: ECMAScript `Array.prototype.sort`
is a stable sort; with this comparator its output is the unique stable descending
reordering, realized here by stable insertion sort. -/
def sortByConfidenceDesc (items : List DiffItem) : List DiffItem :=
  items.insertionSort confGE

/-- `computeRankedDifferentials`: score the five fixed candidates, sort descending
(stable), `slice(0, 5)`. -/
def computeRankedDifferentials (p : DiffParams) : List DiffItem :=
  (sortByConfidenceDesc (differentialItems p)).take 5

/-! ## Engine top level -/

/-- `toNumberOrNull` of the engine: on the typed domain (`ℚ` or absent) it is the
identity — the string-parsing and NaN branches concern values outside the numeric
data model. -/
def toNumberOrNull (v : Option ℚ) : Option ℚ := v

/-- The ranked-differential parameters the engine passes to
`computeRankedDifferentials` (step 9): the ML positive probability (defaulted to 0.5
when absent) and the same normalized numeric values the rule engine used, plus the
final risk tier. -/
def engineDiffParams (reportData : ReportData) (mlPrediction : MLPrediction)
    (riskTier : String) : DiffParams :=
  { igaProbability := (toNumberOrNull (some mlPrediction.probabilities.2)).getD 0.5
    acr := toNumberOrNull reportData.acr
    egfr := toNumberOrNull reportData.egfr
    albumin := toNumberOrNull reportData.albumin
    riskTier := riskTier }

/-- The authoritative engine output (`Decision` in the spec data model). -/
structure Decision where
  riskTier : String
  decision : String
  humanEscalation : Bool
  confidence : ℚ
  rankedDifferentials : List DiffItem
  clinicalIndicators : Indicators

/-- Steps 1-9 of `analyzeThirdOpCase` after the status check. -/
def runEngine (normalized : NormalizedInput) : Decision :=
  let reportData := normalized.reportData
  let mlPrediction := normalized.mlPrediction
  let clinicalAssessment := assessClinicalRisk reportData
  let mlAssessment := assessMLSignal mlPrediction
  let riskTier :=
    applyExceptionRules reportData
      (determineRiskTier mlAssessment.mlSignal clinicalAssessment.clinicalRisk)
  let decision := applyDecisionExceptions reportData (mapRiskToDecision riskTier)
  let humanEscalation :=
    determineHumanEscalation riskTier decision reportData mlPrediction
      clinicalAssessment.criticalCount
  let confidence := calculateConfidence mlAssessment clinicalAssessment riskTier
  let rankedDifferentials :=
    computeRankedDifferentials (engineDiffParams reportData mlPrediction riskTier)
  { riskTier := riskTier
    decision := decision
    humanEscalation := humanEscalation
    confidence := confidence
    rankedDifferentials := rankedDifferentials
    clinicalIndicators := clinicalAssessment.indicators }

/-- `analyzeThirdOpCase`: normalize the input, throw unless the ML status is
`'success'`, otherwise run the engine steps. -/
def analyzeThirdOpCase (input : EngineInput) : Except String Decision :=
  let normalized := normalizeInput input
  if normalized.mlPrediction.status ≠ "success" then
    Except.error "ML prediction status is not success"
  else
    Except.ok (runEngine normalized)

/-! ## Rule-based fallback differential (llmService.js, `generateFallbackDifferential`) -/

/-- One entry of a differential payload in the narrative/fallback shape
(`{ condition, likelihood, reasoning }`). -/
structure RDEntry where
  condition : String
  likelihood : String
  reasoning : String
deriving DecidableEq

/-- `{ status, message, rankedDifferentials }` — the shape returned by the narrative
generator and by the rule-based fallback. -/
structure DiffPayload where
  status : String
  message : String
  rankedDifferentials : List RDEntry
deriving DecidableEq

/-- `CONFIDENCE_TO_LIKELIHOOD`: confidence at least 0.6 is High, at least 0.35 is
Moderate, otherwise Low. -/
def CONFIDENCE_TO_LIKELIHOOD (c : ℚ) : String :=
  if 0.6 ≤ c then "High" else if 0.35 ≤ c then "Moderate" else "Low"

/-- Item mapping inside `generateFallbackDifferential`
(`item.condition || 'Consideration'`, likelihood from the confidence score,
`item.rationale || item.reasoning || ''` where engine items carry only `rationale`). -/
def fallbackEntry (item : DiffItem) : RDEntry :=
  { condition := if item.condition = "" then "Consideration" else item.condition
    likelihood := CONFIDENCE_TO_LIKELIHOOD item.confidence
    reasoning := if item.rationale = "" then "" else item.rationale }

/-- The `status` local of `generateFallbackDifferential`. -/
def fallbackStatus (decision : Decision) : String :=
  if decision.riskTier = "high" then "pathological"
  else if decision.riskTier = "medium" then "low-risk"
  else "healthy"

/-- The `message` local of `generateFallbackDifferential`. -/
def fallbackMessage (status : String) : String :=
  if status = "healthy" then
    "Lab values within or near normal limits; rule-based review did not suggest significant pathology."
  else if status = "low-risk" then
    "Mild abnormalities noted; rule-based differential considerations below."
  else
    "Abnormalities suggest possible pathology; rule-based differential considerations below."

/-- `generateFallbackDifferential`: run the decision engine, derive a status/message
from the risk tier, and map the top five ranked differentials to likelihood entries. -/
def generateFallbackDifferential (input : EngineInput) : Except String DiffPayload :=
  match analyzeThirdOpCase input with
  | Except.error e => Except.error e
  | Except.ok decision =>
    Except.ok
      { status := fallbackStatus decision
        message := fallbackMessage (fallbackStatus decision)
        rankedDifferentials := (decision.rankedDifferentials.take 5).map fallbackEntry }

/-! ## Differential orchestrator (differentialService.js)

The narrative generator (`generateDifferential`) and the MedGemma clinical-reasoning
generator (`generateMedGemmaReasoning`) are external collaborators (spec section 6,
async functions that may throw); the outcome of each call is a parameter.  The
persistence store is an explicit map from report identifier to the stored record. -/

/-- API-shape ranked concern (`{ title, reasoning, doctorQuestions }`). -/
structure Concern where
  title : String
  reasoning : String
  doctorQuestions : List String
deriving DecidableEq

/-- API-shape `llmInsights`. -/
structure LlmInsightsApi where
  rankedConcerns : List Concern
  overallInterpretation : String
  concerns : List String
  summary : String
deriving DecidableEq

/-- Stored (DB-shape) `llmInsights`; the wall-clock `generatedAt` field is omitted. -/
structure StoredInsights where
  overallSummary : String
  rankedConcerns : List Concern
  doctorQuestions : List String
deriving DecidableEq

/-- Persisted `DifferentialRecord` (differential.model.js document as used by the
service). -/
structure StoredRecord where
  status : String
  message : String
  rankedDifferentials : List RDEntry
  source : String
  llmInsights : Option StoredInsights
deriving DecidableEq

/-- The persistence store, keyed by report identifier. -/
def Store : Type := String → Option StoredRecord

/-- Shape returned by `getCachedDifferential`. -/
structure CachedDiff where
  status : String
  message : String
  rankedDifferentials : List RDEntry
  source : String
  llmInsights : Option StoredInsights
deriving DecidableEq

/-- A concern as returned by the MedGemma reasoning call
(`{ title, reason, doctorQuestions? }`). -/
structure MGConcern where
  title : String
  reason : String
  doctorQuestions : Option (List String)
deriving DecidableEq

/-- Result of `generateMedGemmaReasoning` (only the `concerns` field is consumed). -/
structure MedGemmaResult where
  concerns : List MGConcern
deriving DecidableEq

/-- `LLM_INSIGHTS_FALLBACK` of differentialService.js. -/
def LLM_INSIGHTS_FALLBACK : LlmInsightsApi :=
  { rankedConcerns := []
    overallInterpretation := "Clinical reasoning unavailable. Rule-based analysis completed."
    concerns := []
    summary := "Clinical reasoning unavailable. Rule-based analysis completed." }

/-- `llmInsightsFromMedGemma`: build the API `llmInsights` shape from MedGemma
concerns. -/
def llmInsightsFromMedGemma (concerns : List MGConcern) : LlmInsightsApi :=
  let rankedConcerns := concerns.map (fun c =>
    ({ title := c.title
       reasoning := c.reason
       doctorQuestions := (c.doctorQuestions.getD []).filter (fun q => q.trim ≠ "") } : Concern))
  let firstReason := ((rankedConcerns.head?).map Concern.reasoning).getD ""
  { rankedConcerns := rankedConcerns
    overallInterpretation := firstReason
    concerns := (rankedConcerns.map Concern.title).filter (fun t => t ≠ "")
    summary := firstReason }

/-- `mapStoredLlmInsightsToApi` (defined in the service; the current orchestrator path
does not call it on cache hits). -/
def mapStoredLlmInsightsToApi (stored : StoredInsights) : LlmInsightsApi :=
  { rankedConcerns := stored.rankedConcerns
    overallInterpretation := stored.overallSummary
    concerns := (stored.rankedConcerns.map Concern.title).filter (fun t => t ≠ "")
    summary := stored.overallSummary }

/-- `mapApiLlmInsightsToStored` (the `generatedAt` wall-clock field is omitted). -/
def mapApiLlmInsightsToStored (api : LlmInsightsApi) : StoredInsights :=
  { overallSummary := api.overallInterpretation
    rankedConcerns := api.rankedConcerns
    doctorQuestions := api.rankedConcerns.foldl (fun acc c => acc ++ c.doctorQuestions) [] }

/-- `getCachedDifferential`: `findOne({ reportId })`, `null` when absent. -/
def getCachedDifferential (store : Store) (reportId : String) : Option CachedDiff :=
  match store reportId with
  | none => none
  | some doc =>
    some { status := doc.status
           message := doc.message
           rankedDifferentials := doc.rankedDifferentials
           source := doc.source
           llmInsights := doc.llmInsights }

/-- `saveDifferential`: upsert by report identifier ($set semantics: an existing
document's `llmInsights` is preserved when no insights are passed). -/
def saveDifferential (store : Store) (reportId : String) (payload : DiffPayload)
    (source : String) (llmInsightsApi : Option LlmInsightsApi) : Store :=
  fun k =>
    if k = reportId then
      some { status := payload.status
             message := payload.message
             rankedDifferentials := payload.rankedDifferentials
             source := source
             llmInsights :=
               match llmInsightsApi with
               | some api => some (mapApiLlmInsightsToStored api)
               | none =>
                 match store reportId with
                 | some doc => doc.llmInsights
                 | none => none }
    else store k

/-- `saveLlmInsights`: `$set` only `llmInsights` on an existing document (no upsert). -/
def saveLlmInsights (store : Store) (reportId : String) (api : LlmInsightsApi) : Store :=
  fun k =>
    if k = reportId then
      match store reportId with
      | some doc => some { doc with llmInsights := some (mapApiLlmInsightsToStored api) }
      | none => none
    else store k

/-- The `differentialResult` local of the orchestrator (payload fields plus the
`source` property, which is present only on the cached path). -/
structure DiffResult where
  status : String
  message : String
  rankedDifferentials : List RDEntry
  source : Option String
deriving DecidableEq

/-- Full response payload of `generateDifferentialAnalysis` (the wall-clock
`timestamp` field is omitted). -/
structure Response where
  riskTier : String
  decision : String
  humanEscalation : Bool
  confidence : ℚ
  clinicalIndicators : Indicators
  rankedDifferentials : List RDEntry
  status : String
  message : String
  differentialSource : Option String
  llmInsights : LlmInsightsApi
  concerns : List MGConcern
  explanation : String
  explanationSource : String
  recommendedActions : List String

/-- One orchestrator run: the response, the updated store, and whether each external
generator was invoked during the run. -/
structure OrchestraOut where
  response : Response
  store : Store
  narrativeCalled : Bool
  medgemmaCalled : Bool

/-- The tail of `generateDifferentialAnalysis` shared by all three branches: the
MedGemma clinical-reasoning attempt (always performed) and the response assembly. -/
def finishAnalysis (reportId : String) (decision : Decision) (differentialResult : DiffResult)
    (store1 : Store) (narrativeCalled : Bool)
    (medgemma : Except String MedGemmaResult) : OrchestraOut :=
  let outcome :
      LlmInsightsApi × List MGConcern × String × Store :=
    match medgemma with
    | Except.ok mg =>
      let concerns := mg.concerns
      let llmInsights := llmInsightsFromMedGemma concerns
      (llmInsights, concerns, "ollama", saveLlmInsights store1 reportId llmInsights)
    | Except.error _ => (LLM_INSIGHTS_FALLBACK, [], "rules", store1)
  { response :=
      { riskTier := decision.riskTier
        decision := decision.decision
        humanEscalation := decision.humanEscalation
        confidence := decision.confidence
        clinicalIndicators := decision.clinicalIndicators
        rankedDifferentials := differentialResult.rankedDifferentials
        status := differentialResult.status
        message := differentialResult.message
        differentialSource := differentialResult.source
        llmInsights := outcome.1
        concerns := outcome.2.1
        explanation := ""
        explanationSource := outcome.2.2.1
        recommendedActions := [] }
    store := outcome.2.2.2
    narrativeCalled := narrativeCalled
    medgemmaCalled := true }

/-- `generateDifferentialAnalysis` (differentialService.js): decision engine first,
then cache lookup; on a miss, the narrative-generation attempt with rule-based
fallback and persistence; finally the MedGemma clinical-reasoning attempt (always,
also on cache hits) and the response assembly. -/
def generateDifferentialAnalysis (reportId : String) (input : EngineInput) (store0 : Store)
    (narrative : Except String DiffPayload) (medgemma : Except String MedGemmaResult) :
    Except String OrchestraOut :=
  match analyzeThirdOpCase input with
  | Except.error e => Except.error e
  | Except.ok decision =>
    match getCachedDifferential store0 reportId with
    | some cached =>
      Except.ok (finishAnalysis reportId decision
        { status := cached.status
          message := cached.message
          rankedDifferentials := cached.rankedDifferentials
          source := some cached.source }
        store0 false medgemma)
    | none =>
      match narrative with
      | Except.ok payload =>
        Except.ok (finishAnalysis reportId decision
          { status := payload.status
            message := payload.message
            rankedDifferentials := payload.rankedDifferentials
            source := none }
          (saveDifferential store0 reportId payload "llm" none) true medgemma)
      | Except.error _ =>
        match generateFallbackDifferential input with
        | Except.error e => Except.error e
        | Except.ok fb =>
          Except.ok (finishAnalysis reportId decision
            { status := fb.status
              message := fb.message
              rankedDifferentials := fb.rankedDifferentials
              source := none }
            (saveDifferential store0 reportId fb "rules_fallback" none) true medgemma)

/-! ## The three exception-override conditions, as predicates -/

/-- eGFR present and below 30. -/
def ExcEgfr (rd : ReportData) : Prop := ∃ v, rd.egfr = some v ∧ v < 30

/-- ACR present and above 300. -/
def ExcAcr (rd : ReportData) : Prop := ∃ v, rd.acr = some v ∧ 300 < v

/-- Creatinine present and above 3.0, and eGFR present and below 45. -/
def ExcCreatEgfr (rd : ReportData) : Prop :=
  (∃ v, rd.creatinine = some v ∧ 3 < v) ∧ ∃ v, rd.egfr = some v ∧ v < 45

/-! ## Helper lemmas -/

theorem presentAnd_true_iff (v : Option ℚ) (p : ℚ → Bool) :
    presentAnd v p = true ↔ ∃ x, v = some x ∧ p x = true := by
  cases v <;> simp [presentAnd]

theorem excEgfr_iff (rd : ReportData) :
    presentAnd rd.egfr (fun v => decide (v < 30)) = true ↔ ExcEgfr rd := by
  simp [presentAnd_true_iff, ExcEgfr]

theorem excAcr_iff (rd : ReportData) :
    presentAnd rd.acr (fun v => decide (300 < v)) = true ↔ ExcAcr rd := by
  simp [presentAnd_true_iff, ExcAcr]

theorem excCreatEgfr_iff (rd : ReportData) :
    (presentAnd rd.creatinine (fun v => decide (3.0 < v)) &&
      presentAnd rd.egfr (fun v => decide (v < 45))) = true ↔ ExcCreatEgfr rd := by
  simp [presentAnd_true_iff, ExcCreatEgfr]
  norm_num

theorem applyExceptionRules_of_exc (rd : ReportData)
    (h : ExcEgfr rd ∨ ExcAcr rd ∨ ExcCreatEgfr rd) (t : String) :
    applyExceptionRules rd t = "high" := by
  unfold applyExceptionRules
  split_ifs with h1 h2 h3 <;> try rfl
  exfalso
  rcases h with he | ha | hc
  · exact h1 ((excEgfr_iff rd).mpr he)
  · exact h2 ((excAcr_iff rd).mpr ha)
  · exact h3 ((excCreatEgfr_iff rd).mpr hc)

theorem applyExceptionRules_of_no_exc (rd : ReportData)
    (h : ¬ExcEgfr rd ∧ ¬ExcAcr rd ∧ ¬ExcCreatEgfr rd) (t : String) :
    applyExceptionRules rd t = t := by
  unfold applyExceptionRules
  rw [if_neg, if_neg, if_neg]
  · intro hb; exact h.2.2 ((excCreatEgfr_iff rd).mp hb)
  · intro hb; exact h.2.1 ((excAcr_iff rd).mp hb)
  · intro hb; exact h.1 ((excEgfr_iff rd).mp hb)

theorem applyDecisionExceptions_of_exc (rd : ReportData)
    (h : ExcEgfr rd ∨ ExcAcr rd ∨ ExcCreatEgfr rd) (d : String) :
    applyDecisionExceptions rd d = "escalate" := by
  unfold applyDecisionExceptions
  split_ifs with h1 h2 h3 <;> try rfl
  exfalso
  rcases h with he | ha | hc
  · exact h1 ((excEgfr_iff rd).mpr he)
  · exact h2 ((excAcr_iff rd).mpr ha)
  · exact h3 ((excCreatEgfr_iff rd).mpr hc)

theorem applyDecisionExceptions_of_no_exc (rd : ReportData)
    (h : ¬ExcEgfr rd ∧ ¬ExcAcr rd ∧ ¬ExcCreatEgfr rd) (d : String) :
    applyDecisionExceptions rd d = d := by
  unfold applyDecisionExceptions
  rw [if_neg, if_neg, if_neg]
  · intro hb; exact h.2.2 ((excCreatEgfr_iff rd).mp hb)
  · intro hb; exact h.2.1 ((excAcr_iff rd).mp hb)
  · intro hb; exact h.1 ((excEgfr_iff rd).mp hb)

/-- Every matrix lookup (with its `'low'` default) lands in the three-tier set. -/
theorem determineRiskTier_mem (s c : String) :
    determineRiskTier s c = "low" ∨ determineRiskTier s c = "medium" ∨
      determineRiskTier s c = "high" := by
  unfold determineRiskTier riskMatrix
  split_ifs <;> simp

/-- The final risk tier of the engine is always one of the three tiers. -/
theorem runEngine_riskTier_mem (n : NormalizedInput) :
    (runEngine n).riskTier = "low" ∨ (runEngine n).riskTier = "medium" ∨
      (runEngine n).riskTier = "high" := by
  show applyExceptionRules _ _ = _ ∨ applyExceptionRules _ _ = _ ∨ applyExceptionRules _ _ = _
  unfold applyExceptionRules
  split_ifs <;> simp [determineRiskTier_mem]

theorem analyzeThirdOpCase_ok_iff (input : EngineInput) (out : Decision) :
    analyzeThirdOpCase input = Except.ok out ↔
      (normalizeInput input).mlPrediction.status = "success" ∧
        runEngine (normalizeInput input) = out := by
  unfold analyzeThirdOpCase
  dsimp only
  split_ifs with h
  · simp [h]
  · rw [not_not] at h
    simp [h]

theorem runEngine_riskTier (n : NormalizedInput) :
    (runEngine n).riskTier =
      applyExceptionRules n.reportData
        (determineRiskTier (assessMLSignal n.mlPrediction).mlSignal
          (assessClinicalRisk n.reportData).clinicalRisk) := rfl

theorem runEngine_decision (n : NormalizedInput) :
    (runEngine n).decision =
      applyDecisionExceptions n.reportData (mapRiskToDecision (runEngine n).riskTier) := rfl

/-! ## Claim C1 -/

/-- **C1.** For every input accepted by the decision engine: when any of the three
exception conditions holds (eGFR present and <30; ACR present and >300; creatinine
present and >3.0 together with eGFR present and <45) the returned risk tier is `high`
and the returned decision is `escalate`, regardless of the fusion-matrix result; and
absent all three conditions the decision is exactly the image of the risk tier under
the fixed map low → monitor, medium → request_additional_tests, high → escalate. -/
theorem C1_exception_overrides_and_decision_map (input : EngineInput) (out : Decision)
    (h : analyzeThirdOpCase input = Except.ok out) :
    ((ExcEgfr (normalizeInput input).reportData ∨ ExcAcr (normalizeInput input).reportData ∨
        ExcCreatEgfr (normalizeInput input).reportData) →
      out.riskTier = "high" ∧ out.decision = "escalate") ∧
    ((¬ExcEgfr (normalizeInput input).reportData ∧ ¬ExcAcr (normalizeInput input).reportData ∧
        ¬ExcCreatEgfr (normalizeInput input).reportData) →
      (out.riskTier = "low" ∧ out.decision = "monitor") ∨
      (out.riskTier = "medium" ∧ out.decision = "request_additional_tests") ∨
      (out.riskTier = "high" ∧ out.decision = "escalate")) := by
  obtain ⟨-, hrun⟩ := (analyzeThirdOpCase_ok_iff input out).mp h
  subst hrun
  set n := normalizeInput input with hn
  constructor
  · intro hexc
    have htier : (runEngine n).riskTier = "high" := by
      rw [runEngine_riskTier]
      exact applyExceptionRules_of_exc _ hexc _
    refine ⟨htier, ?_⟩
    rw [runEngine_decision]
    exact applyDecisionExceptions_of_exc _ hexc _
  · intro hno
    have htier : (runEngine n).riskTier =
        determineRiskTier (assessMLSignal n.mlPrediction).mlSignal
          (assessClinicalRisk n.reportData).clinicalRisk := by
      rw [runEngine_riskTier]
      exact applyExceptionRules_of_no_exc _ hno _
    have hdec : (runEngine n).decision = mapRiskToDecision (runEngine n).riskTier := by
      rw [runEngine_decision]
      exact applyDecisionExceptions_of_no_exc _ hno _
    rcases determineRiskTier_mem (assessMLSignal n.mlPrediction).mlSignal
        (assessClinicalRisk n.reportData).clinicalRisk with hl | hm | hh
    · left
      rw [htier, hl] at hdec ⊢
      exact ⟨rfl, hdec⟩
    · right; left
      rw [htier, hm] at hdec ⊢
      exact ⟨rfl, hdec⟩
    · right; right
      rw [htier, hh] at hdec ⊢
      exact ⟨rfl, hdec⟩

/-- Input of spec scenario B (eGFR 25 triggers the first exception override). -/
def scenarioB : EngineInput :=
  { reportData := some { creatinine := some 0.8, urea := some 25, albumin := some 4.5, egfr := some 25, acr := some 6 }
    mlPrediction := some { prediction := some 0, probabilities := some (0.92, 0.08), status := some "success" } }

/-- Witness for C1 at scenario B: the override fires and forces high/escalate. -/
theorem C1_witness :
    (runEngine (normalizeInput scenarioB)).riskTier = "high" ∧
      (runEngine (normalizeInput scenarioB)).decision = "escalate" :=
  (C1_exception_overrides_and_decision_map scenarioB (runEngine (normalizeInput scenarioB))
    rfl).1 (Or.inl ⟨25, rfl, by norm_num⟩)

/-! ## Claim C3 -/

/-- **C3.** For every validated clinical-values input, the aggregate clinical risk is
`high` when `criticalCount ≥ 2`; else `medium` when `criticalCount ≥ 1` or
`abnormalCount ≥ 2`; else `low` (covering both one-or-more abnormals with no criticals
and the fully normal case), with exactly this precedence order. -/
theorem C3_clinical_risk_aggregation (rd : ReportData) :
    (assessClinicalRisk rd).clinicalRisk =
      (if 2 ≤ (assessClinicalRisk rd).criticalCount then "high"
       else if 1 ≤ (assessClinicalRisk rd).criticalCount ∨
          2 ≤ (assessClinicalRisk rd).abnormalCount then "medium"
       else "low") := by
  have h : (assessClinicalRisk rd).clinicalRisk =
      clinicalRiskFromCounts (assessClinicalRisk rd).criticalCount
        (assessClinicalRisk rd).abnormalCount := rfl
  rw [h]
  generalize (assessClinicalRisk rd).criticalCount = c
  generalize (assessClinicalRisk rd).abnormalCount = a
  unfold clinicalRiskFromCounts
  split_ifs <;> rfl

/-! ## Claim C4 -/

/-- **C4.** The fused risk tier is the fixed 5-by-3 matrix of the spec (rows
`strong_high`, `moderate`, `weak`, `strong_negative`, `uncertain_negative`; columns
clinical risk `low`, `medium`, `high`), and any combination outside the matrix
defaults to `low`. -/
theorem C4_fusion_matrix :
    (determineRiskTier "strong_high" "low" = "medium" ∧
     determineRiskTier "strong_high" "medium" = "high" ∧
     determineRiskTier "strong_high" "high" = "high" ∧
     determineRiskTier "moderate" "low" = "medium" ∧
     determineRiskTier "moderate" "medium" = "medium" ∧
     determineRiskTier "moderate" "high" = "high" ∧
     determineRiskTier "weak" "low" = "low" ∧
     determineRiskTier "weak" "medium" = "low" ∧
     determineRiskTier "weak" "high" = "medium" ∧
     determineRiskTier "strong_negative" "low" = "low" ∧
     determineRiskTier "strong_negative" "medium" = "low" ∧
     determineRiskTier "strong_negative" "high" = "low" ∧
     determineRiskTier "uncertain_negative" "low" = "low" ∧
     determineRiskTier "uncertain_negative" "medium" = "low" ∧
     determineRiskTier "uncertain_negative" "high" = "medium") ∧
    ∀ s c : String,
      ¬((s = "strong_high" ∨ s = "moderate" ∨ s = "weak" ∨ s = "strong_negative" ∨
          s = "uncertain_negative") ∧ (c = "low" ∨ c = "medium" ∨ c = "high")) →
      determineRiskTier s c = "low" := by
  constructor
  · decide
  · intro s c h
    unfold determineRiskTier riskMatrix
    split_ifs <;> simp_all

/-- Witness for C4: a signal string outside the matrix defaults to `low`. -/
theorem C4_witness : determineRiskTier "bogus" "high" = "low" :=
  C4_fusion_matrix.2 "bogus" "high" (by decide)

/-! ## Claim C5 -/

/-- The confidence formula as worded by the spec (refinement target): start from the
carried-forward ML probability; +0.10 when both the coarse ML risk and the clinical
risk equal the final risk tier, +0.05 when exactly one of them equals it, else −0.20;
add `min(criticalCount × 0.05, 0.10)`; clamp to [0.40, 1.00]; round to two decimals. -/
def specConfidence (ml : MLAssessment) (clin : ClinicalAssessment) (riskTier : String) : ℚ :=
  let adjustment : ℚ :=
    if ml.mlRisk = riskTier ∧ clin.clinicalRisk = riskTier then 0.1
    else if (ml.mlRisk = riskTier ∧ clin.clinicalRisk ≠ riskTier) ∨
        (ml.mlRisk ≠ riskTier ∧ clin.clinicalRisk = riskTier) then 0.05
    else -0.2
  roundTo2 (max 0.4 (min 1.0
    (ml.probability + adjustment + min ((clin.criticalCount : ℚ) * 0.05) 0.1)))

theorem roundTo2_bounds (x : ℚ) (h1 : 0.4 ≤ x) (h2 : x ≤ 1) :
    0.4 ≤ roundTo2 x ∧ roundTo2 x ≤ 1 := by
  unfold roundTo2 jsRound
  constructor
  · rw [le_div_iff₀ (by norm_num : (0:ℚ) < 100)]
    have h : (40:ℤ) ≤ ⌊x * 100 + 1/2⌋ := by
      apply Int.le_floor.mpr
      push_cast
      linarith
    calc (0.4:ℚ) * 100 = ((40:ℤ):ℚ) := by norm_num
    _ ≤ _ := by exact_mod_cast h
  · rw [div_le_iff₀ (by norm_num : (0:ℚ) < 100)]
    have h : ⌊x * 100 + 1/2⌋ < 101 := by
      apply Int.floor_lt.mpr
      push_cast
      linarith
    have h' : ⌊x * 100 + 1/2⌋ ≤ 100 := by omega
    calc ((⌊x * 100 + 1/2⌋:ℤ):ℚ) ≤ ((100:ℤ):ℚ) := by exact_mod_cast h'
    _ = 1 * 100 := by norm_num

theorem calculateConfidence_bounds (ml : MLAssessment) (clin : ClinicalAssessment)
    (rt : String) :
    0.4 ≤ calculateConfidence ml clin rt ∧ calculateConfidence ml clin rt ≤ 1 := by
  unfold calculateConfidence
  dsimp only
  exact roundTo2_bounds _ (le_max_left _ _)
    (max_le (by norm_num) (le_trans (min_le_left _ _) (by norm_num)))

/-- When both tiers are in {low, medium, high}, the agreement boolean is exactly
equality with the final risk tier. -/
theorem tierAgrees_iff (t rt : String)
    (ht : t = "low" ∨ t = "medium" ∨ t = "high")
    (hr : rt = "low" ∨ rt = "medium" ∨ rt = "high") :
    tierAgrees t rt = true ↔ t = rt := by
  rcases ht with rfl | rfl | rfl <;> rcases hr with rfl | rfl | rfl <;> decide

theorem assessMLSignal_mlRisk_mem (p : MLPrediction) :
    (assessMLSignal p).mlRisk = "low" ∨ (assessMLSignal p).mlRisk = "medium" ∨
      (assessMLSignal p).mlRisk = "high" := by
  unfold assessMLSignal
  dsimp only
  split_ifs <;> simp

theorem assessClinicalRisk_mem (rd : ReportData) :
    (assessClinicalRisk rd).clinicalRisk = "low" ∨
      (assessClinicalRisk rd).clinicalRisk = "medium" ∨
      (assessClinicalRisk rd).clinicalRisk = "high" := by
  have h : (assessClinicalRisk rd).clinicalRisk =
      clinicalRiskFromCounts (assessClinicalRisk rd).criticalCount
        (assessClinicalRisk rd).abnormalCount := rfl
  rw [h]
  unfold clinicalRiskFromCounts
  split_ifs <;> simp

theorem assessMLSignal_probability (p : MLPrediction) :
    (assessMLSignal p).probability =
      (if p.prediction = some 1 then p.probabilities.2 else p.probabilities.1) := by
  unfold assessMLSignal
  dsimp only
  split_ifs <;> rfl

/-- The engine's confidence equals the spec-worded formula whenever the three tier
strings range over {low, medium, high}. -/
theorem calculateConfidence_eq_spec (ml : MLAssessment) (clin : ClinicalAssessment)
    (rt : String)
    (hm : ml.mlRisk = "low" ∨ ml.mlRisk = "medium" ∨ ml.mlRisk = "high")
    (hc : clin.clinicalRisk = "low" ∨ clin.clinicalRisk = "medium" ∨
      clin.clinicalRisk = "high")
    (hr : rt = "low" ∨ rt = "medium" ∨ rt = "high") :
    calculateConfidence ml clin rt = specConfidence ml clin rt := by
  have hA := tierAgrees_iff ml.mlRisk rt hm hr
  have hB := tierAgrees_iff clin.clinicalRisk rt hc hr
  have boolFalse : ∀ b : Bool, ∀ p : Prop, (b = true ↔ p) → ¬p → b = false := by
    intro b p hbp hnp
    cases hEq : b
    · rfl
    · exact absurd (hbp.mp hEq) hnp
  unfold calculateConfidence specConfidence
  dsimp only
  by_cases h1 : ml.mlRisk = rt <;> by_cases h2 : clin.clinicalRisk = rt
  · rw [hA.mpr h1, hB.mpr h2,
      if_pos (⟨h1, h2⟩ : ml.mlRisk = rt ∧ clin.clinicalRisk = rt)]
    simp
  · rw [hA.mpr h1, boolFalse _ _ hB h2,
      if_neg (fun hcon : ml.mlRisk = rt ∧ clin.clinicalRisk = rt => h2 hcon.2),
      if_pos (Or.inl ⟨h1, h2⟩ : (ml.mlRisk = rt ∧ clin.clinicalRisk ≠ rt) ∨
        (ml.mlRisk ≠ rt ∧ clin.clinicalRisk = rt))]
    simp
  · rw [boolFalse _ _ hA h1, hB.mpr h2,
      if_neg (fun hcon : ml.mlRisk = rt ∧ clin.clinicalRisk = rt => h1 hcon.1),
      if_pos (Or.inr ⟨h1, h2⟩ : (ml.mlRisk = rt ∧ clin.clinicalRisk ≠ rt) ∨
        (ml.mlRisk ≠ rt ∧ clin.clinicalRisk = rt))]
    simp
  · rw [boolFalse _ _ hA h1, boolFalse _ _ hB h2,
      if_neg (fun hcon : ml.mlRisk = rt ∧ clin.clinicalRisk = rt => h1 hcon.1),
      if_neg (fun hcon : (ml.mlRisk = rt ∧ clin.clinicalRisk ≠ rt) ∨
        (ml.mlRisk ≠ rt ∧ clin.clinicalRisk = rt) =>
          hcon.elim (fun hx => h1 hx.1) (fun hx => h2 hx.2))]
    simp
    rw [sub_eq_add_neg]

theorem runEngine_confidence (n : NormalizedInput) :
    (runEngine n).confidence =
      calculateConfidence (assessMLSignal n.mlPrediction) (assessClinicalRisk n.reportData)
        (runEngine n).riskTier := rfl

/-- **C5.** For every input the engine accepts: the confidence equals the spec formula
(base = carried-forward ML probability, agreement adjustment +0.10 / +0.05 / −0.20,
critical bonus `min(criticalCount × 0.05, 0.10)`, clamp to [0.40, 1.00], two-decimal
rounding); the carried-forward probability is pPos when prediction = 1 and pNeg
otherwise; and the confidence always lies in [0.40, 1.00]. -/
theorem C5_confidence_formula (input : EngineInput) (out : Decision)
    (h : analyzeThirdOpCase input = Except.ok out) :
    out.confidence =
      specConfidence (assessMLSignal (normalizeInput input).mlPrediction)
        (assessClinicalRisk (normalizeInput input).reportData) out.riskTier ∧
    (assessMLSignal (normalizeInput input).mlPrediction).probability =
      (if (normalizeInput input).mlPrediction.prediction = some 1 then
        (normalizeInput input).mlPrediction.probabilities.2
       else (normalizeInput input).mlPrediction.probabilities.1) ∧
    0.4 ≤ out.confidence ∧ out.confidence ≤ 1 := by
  obtain ⟨-, hrun⟩ := (analyzeThirdOpCase_ok_iff input out).mp h
  subst hrun
  refine ⟨?_, assessMLSignal_probability _, ?_, ?_⟩
  · rw [runEngine_confidence]
    exact calculateConfidence_eq_spec _ _ _ (assessMLSignal_mlRisk_mem _)
      (assessClinicalRisk_mem _) (runEngine_riskTier_mem _)
  · rw [runEngine_confidence]
    exact (calculateConfidence_bounds _ _ _).1
  · rw [runEngine_confidence]
    exact (calculateConfidence_bounds _ _ _).2

/-- Witness for C5 at scenario B: the clamp invariant holds on a concrete run. -/
theorem C5_witness :
    0.4 ≤ (runEngine (normalizeInput scenarioB)).confidence ∧
      (runEngine (normalizeInput scenarioB)).confidence ≤ 1 :=
  (C5_confidence_formula scenarioB (runEngine (normalizeInput scenarioB)) rfl).2.2

/-! ## Claim C6 -/

theorem clamp01_bounds (n : ℚ) : 0 ≤ clamp01 n ∧ clamp01 n ≤ 1 :=
  ⟨le_max_left _ _, max_le (by norm_num) (min_le_left _ _)⟩

theorem append_ne_empty (s t : String) (h : s.length ≠ 0) : s ++ t ≠ "" := by
  intro he
  have hl : (s ++ t).length = s.length + t.length := String.length_append s t
  rw [he] at hl
  simp at hl
  omega

theorem length_append_ne (s t : String) (h : s.length ≠ 0) : (s ++ t).length ≠ 0 := by
  rw [String.length_append]
  omega

theorem mem_differentialItems_bounds (p : DiffParams) (x : DiffItem)
    (hx : x ∈ differentialItems p) : 0 ≤ x.confidence ∧ x.confidence ≤ 1 := by
  simp only [differentialItems, List.mem_cons, List.not_mem_nil, or_false] at hx
  rcases hx with rfl | rfl | rfl | rfl | rfl <;> exact clamp01_bounds _

theorem mem_differentialItems_rationale (p : DiffParams) (x : DiffItem)
    (hx : x ∈ differentialItems p) : x.rationale ≠ "" := by
  simp only [differentialItems, List.mem_cons, List.not_mem_nil, or_false] at hx
  rcases hx with rfl | rfl | rfl | rfl | rfl
  · show igaRationale p ≠ ""
    unfold igaRationale
    apply append_ne_empty
    repeat apply length_append_ne
    decide
  · simp
  · simp
  · simp
  · simp

/-- Stability of one insertion step: the sublist of entries whose confidence equals any
fixed value is unchanged (the inserted element lands in front of it exactly when it has
that confidence, because insertion only skips strictly larger confidences). -/
theorem filter_confEq_orderedInsert (q : ℚ) (x : DiffItem) (l : List DiffItem) :
    (List.orderedInsert confGE x l).filter (fun y => decide (y.confidence = q)) =
      if x.confidence = q then
        x :: l.filter (fun y => decide (y.confidence = q))
      else l.filter (fun y => decide (y.confidence = q)) := by
  induction l with
  | nil =>
    by_cases hxq : x.confidence = q <;> simp [List.orderedInsert, hxq]
  | cons y ys ih =>
    by_cases hins : confGE x y
    · by_cases hxq : x.confidence = q <;>
        simp [List.orderedInsert, if_pos hins, List.filter_cons, hxq]
    · have hlt : x.confidence < y.confidence := not_le.mp hins
      by_cases hxq : x.confidence = q
      · have hyq : ¬(y.confidence = q) := by
          rw [← hxq]
          exact ne_of_gt hlt
        simp [List.orderedInsert, if_neg hins, List.filter_cons, hxq, hyq, ih]
      · simp [List.orderedInsert, if_neg hins, List.filter_cons, hxq, ih]

/-- Stability of the sort: for every confidence value, filtering the sorted list gives
exactly the filter of the declaration-order list (ties keep declaration order). -/
theorem filter_confEq_sort (q : ℚ) (l : List DiffItem) :
    (sortByConfidenceDesc l).filter (fun y => decide (y.confidence = q)) =
      l.filter (fun y => decide (y.confidence = q)) := by
  induction l with
  | nil => rfl
  | cons x xs ih =>
    show (List.orderedInsert confGE x (List.insertionSort confGE xs)).filter _ = _
    rw [filter_confEq_orderedInsert]
    by_cases hxq : x.confidence = q <;> simp [hxq, List.filter_cons]
    · exact ih
    · exact ih

theorem computeRankedDifferentials_eq (p : DiffParams) :
    computeRankedDifferentials p = sortByConfidenceDesc (differentialItems p) := by
  unfold computeRankedDifferentials
  apply List.take_of_length_le
  rw [sortByConfidenceDesc, List.length_insertionSort]
  exact le_refl _

theorem runEngine_rankedDifferentials (n : NormalizedInput) :
    (runEngine n).rankedDifferentials =
      computeRankedDifferentials
        (engineDiffParams n.reportData n.mlPrediction (runEngine n).riskTier) := rfl

/-- **C6.** For every input the engine accepts, the returned `rankedDifferentials` has
exactly 5 entries, each with confidence clamped to [0, 1], sorted by non-increasing
confidence by a stable sort (for every confidence value, the entries carrying it appear
in declaration order, i.e. filtering the output equals filtering the declared items
list), and each entry carries a non-empty natural-language rationale. -/
theorem C6_ranked_differentials (input : EngineInput) (out : Decision)
    (h : analyzeThirdOpCase input = Except.ok out) :
    out.rankedDifferentials.length = 5 ∧
    (∀ x ∈ out.rankedDifferentials, 0 ≤ x.confidence ∧ x.confidence ≤ 1) ∧
    out.rankedDifferentials.Pairwise (fun a b => b.confidence ≤ a.confidence) ∧
    (∀ q : ℚ, out.rankedDifferentials.filter (fun x => decide (x.confidence = q)) =
      (differentialItems (engineDiffParams (normalizeInput input).reportData
          (normalizeInput input).mlPrediction out.riskTier)).filter
        (fun x => decide (x.confidence = q))) ∧
    (∀ x ∈ out.rankedDifferentials, x.rationale ≠ "") := by
  obtain ⟨-, hrun⟩ := (analyzeThirdOpCase_ok_iff input out).mp h
  subst hrun
  rw [runEngine_rankedDifferentials, computeRankedDifferentials_eq]
  refine ⟨?_, ?_, ?_, ?_, ?_⟩
  · rw [sortByConfidenceDesc, List.length_insertionSort]
    rfl
  · intro x hx
    exact mem_differentialItems_bounds _ _
      ((List.perm_insertionSort confGE _).mem_iff.mp hx)
  · exact List.sorted_insertionSort confGE _
  · intro q
    exact filter_confEq_sort q _
  · intro x hx
    exact mem_differentialItems_rationale _ _
      ((List.perm_insertionSort confGE _).mem_iff.mp hx)

/-- Witness for C6 at scenario B: length of a concrete run's ranked differentials. -/
theorem C6_witness :
    (runEngine (normalizeInput scenarioB)).rankedDifferentials.length = 5 :=
  (C6_ranked_differentials scenarioB (runEngine (normalizeInput scenarioB)) rfl).1

/-! ## Claims C8 and C9 -/

theorem analyzeThirdOpCase_error_of_status (input : EngineInput)
    (h : (normalizeInput input).mlPrediction.status ≠ "success") :
    analyzeThirdOpCase input = Except.error "ML prediction status is not success" := by
  unfold analyzeThirdOpCase
  dsimp only
  rw [if_pos h]

theorem analyzeThirdOpCase_ok_of_status (input : EngineInput)
    (h : (normalizeInput input).mlPrediction.status = "success") :
    analyzeThirdOpCase input = Except.ok (runEngine (normalizeInput input)) := by
  unfold analyzeThirdOpCase
  dsimp only
  rw [if_neg (fun hne => hne h)]

/-- **C8.** The engine fails exactly when the normalized ML status is not `'success'`:
a non-success normalized status yields the contract-violation error (no result), and a
success status always yields a complete `Decision`. -/
theorem C8_status_contract (input : EngineInput) :
    ((normalizeInput input).mlPrediction.status ≠ "success" →
      analyzeThirdOpCase input = Except.error "ML prediction status is not success") ∧
    ((normalizeInput input).mlPrediction.status = "success" →
      analyzeThirdOpCase input = Except.ok (runEngine (normalizeInput input))) :=
  ⟨analyzeThirdOpCase_error_of_status input, analyzeThirdOpCase_ok_of_status input⟩

/-- Input of spec scenario E: explicit ML status `'error'`. -/
def statusErrorInput : EngineInput :=
  { reportData := some {}
    mlPrediction := some { prediction := some 1, probabilities := some (0.3, 0.7), status := some "error" } }

/-- Witness for C8: ML status `'error'` produces no result. -/
theorem C8_witness :
    analyzeThirdOpCase statusErrorInput = Except.error "ML prediction status is not success" :=
  (C8_status_contract statusErrorInput).1 (by decide)

/-- **C9.** A missing `status` field is defaulted to `'success'` by the input
normalizer (as missing probabilities default to `[0.5, 0.5]`), so the engine returns a
full `Decision`; a failure can only arise from an explicitly present non-`'success'`
status. -/
theorem C9_missing_status_defaults (input : EngineInput) :
    ((input.mlPrediction = none ∨ ∃ m, input.mlPrediction = some m ∧ m.status = none) →
      (normalizeInput input).mlPrediction.status = "success" ∧
        analyzeThirdOpCase input = Except.ok (runEngine (normalizeInput input))) ∧
    ((∃ m, input.mlPrediction = some m ∧ m.probabilities = none) →
      (normalizeInput input).mlPrediction.probabilities = (1/2, 1/2)) ∧
    (∀ e, analyzeThirdOpCase input = Except.error e →
      ∃ m s, input.mlPrediction = some m ∧ m.status = some s ∧ s ≠ "success") := by
  refine ⟨?_, ?_, ?_⟩
  · intro h
    have hst : (normalizeInput input).mlPrediction.status = "success" := by
      rcases h with hnone | ⟨m, hm, hs⟩
      · unfold normalizeInput
        rw [hnone]
        rfl
      · unfold normalizeInput
        rw [hm]
        dsimp only [Option.getD]
        rw [hs]
    exact ⟨hst, analyzeThirdOpCase_ok_of_status input hst⟩
  · rintro ⟨m, hm, hp⟩
    unfold normalizeInput
    rw [hm]
    dsimp only [Option.getD]
    rw [hp]
  · intro e he
    have hst : (normalizeInput input).mlPrediction.status ≠ "success" := by
      intro hok
      rw [analyzeThirdOpCase_ok_of_status input hok] at he
      cases he
    rcases hmp : input.mlPrediction with _ | m
    · exfalso
      apply hst
      unfold normalizeInput
      rw [hmp]
      rfl
    · rcases hms : m.status with _ | s
      · exfalso
        apply hst
        unfold normalizeInput
        rw [hmp]
        dsimp only [Option.getD]
        rw [hms]
      · refine ⟨m, s, rfl, hms, ?_⟩
        intro hss
        apply hst
        unfold normalizeInput
        rw [hmp]
        dsimp only [Option.getD]
        rw [hms]
        dsimp only
        by_cases hse : s = ""
        · rw [if_pos hse]
        · rw [if_neg hse]
          exact hss

/-- Input whose `mlPrediction` carries neither a `status` nor `probabilities`. -/
def noStatusInput : EngineInput :=
  { reportData := some {}
    mlPrediction := some { prediction := some 1, probabilities := none, status := none } }

/-- Witness for C9: with no status field the engine still returns a full decision, and
the missing probabilities default to `[0.5, 0.5]`. -/
theorem C9_witness :
    (normalizeInput noStatusInput).mlPrediction.status = "success" ∧
      analyzeThirdOpCase noStatusInput =
        Except.ok (runEngine (normalizeInput noStatusInput)) ∧
      (normalizeInput noStatusInput).mlPrediction.probabilities = (1/2, 1/2) := by
  obtain ⟨h1, -, -⟩ := C9_missing_status_defaults noStatusInput
  obtain ⟨ha, hb⟩ :=
    h1 (Or.inr ⟨{ prediction := some 1, probabilities := none, status := none }, rfl, rfl⟩)
  refine ⟨ha, hb, ?_⟩
  exact (C9_missing_status_defaults noStatusInput).2.1
    ⟨{ prediction := some 1, probabilities := none, status := none }, rfl, rfl⟩

/-! ## Claim C10 -/

/-- Report data carrying only an ACR of exactly 300. -/
def acr300Data : ReportData := { acr := some 300 }

/-- **C10.** At ACR exactly 300: the clinical evaluation classifies microalbuminuria
(abnormal, not critical); neither the risk-tier nor the decision exception override
fires (both require ACR strictly above 300); yet the differential-ranking heuristic
counts 300 as heavy proteinuria (its flag uses ACR ≥ 300) and not as moderate — the
two sides treat the 300 boundary differently. -/
theorem C10_acr_300_boundary :
    (evaluateACR (some 300)).classification = some "microalbuminuria" ∧
    (evaluateACR (some 300)).isAbnormal = true ∧
    (evaluateACR (some 300)).isCritical = false ∧
    (applyExceptionRules acr300Data "low" = "low" ∧
     applyExceptionRules acr300Data "medium" = "medium" ∧
     applyExceptionRules acr300Data "high" = "high") ∧
    (applyDecisionExceptions acr300Data "monitor" = "monitor" ∧
     applyDecisionExceptions acr300Data "request_additional_tests" =
       "request_additional_tests" ∧
     applyDecisionExceptions acr300Data "escalate" = "escalate") ∧
    hasHeavyProteinuria (some 300) = true ∧
    hasModerateProteinuria (some 300) = false := by
  refine ⟨rfl, rfl, rfl, ⟨rfl, rfl, rfl⟩, ⟨rfl, rfl, rfl⟩, rfl, rfl⟩

/-! ## Claims C2 and C7 (orchestrator) -/

theorem engine_rankedDifferentials_length (input : EngineInput) (d : Decision)
    (h : analyzeThirdOpCase input = Except.ok d) : d.rankedDifferentials.length = 5 := by
  obtain ⟨-, hrun⟩ := (analyzeThirdOpCase_ok_iff input d).mp h
  subst hrun
  rw [runEngine_rankedDifferentials, computeRankedDifferentials_eq, sortByConfidenceDesc,
    List.length_insertionSort]
  rfl

/-- Cache hit: the orchestrator reuses the stored payload fields and the stored source
tag, does not touch the store on the differential side, and marks no narrative call. -/
theorem gda_cached (reportId : String) (input : EngineInput) (store : Store)
    (narrative : Except String DiffPayload) (medgemma : Except String MedGemmaResult)
    (c : CachedDiff) (d : Decision)
    (hd : analyzeThirdOpCase input = Except.ok d)
    (hc : getCachedDifferential store reportId = some c) :
    generateDifferentialAnalysis reportId input store narrative medgemma =
      Except.ok (finishAnalysis reportId d
        { status := c.status, message := c.message,
          rankedDifferentials := c.rankedDifferentials, source := some c.source }
        store false medgemma) := by
  unfold generateDifferentialAnalysis
  rw [hd, hc]

/-- Cache miss with a failing narrative call: the orchestrator swallows the failure and
takes the rule-based fallback, persisting it tagged `rules_fallback`. -/
theorem gda_miss_fallback (reportId : String) (input : EngineInput) (store : Store)
    (medgemma : Except String MedGemmaResult) (e : String) (d : Decision)
    (hd : analyzeThirdOpCase input = Except.ok d)
    (hmiss : getCachedDifferential store reportId = none) :
    generateDifferentialAnalysis reportId input store (Except.error e) medgemma =
      Except.ok (finishAnalysis reportId d
        { status := fallbackStatus d, message := fallbackMessage (fallbackStatus d),
          rankedDifferentials := (d.rankedDifferentials.take 5).map fallbackEntry,
          source := none }
        (saveDifferential store reportId
          { status := fallbackStatus d, message := fallbackMessage (fallbackStatus d),
            rankedDifferentials := (d.rankedDifferentials.take 5).map fallbackEntry }
          "rules_fallback" none) true medgemma) := by
  unfold generateDifferentialAnalysis generateFallbackDifferential
  rw [hd, hmiss]

/-- **C2 (amended).** When a persisted record exists for the case identifier, the
orchestrator reuses its `rankedDifferentials`, `status`, `message`, and `source`
verbatim and never invokes the narrative generator; however, the clinical-reasoning
generator is still invoked on every call (cache hits included), so `llmInsights` is not
reused from the record. -/
theorem C2_cached_reuse (reportId : String) (input : EngineInput) (store : Store)
    (narrative : Except String DiffPayload) (medgemma : Except String MedGemmaResult)
    (c : CachedDiff) (out : OrchestraOut)
    (hc : getCachedDifferential store reportId = some c)
    (h : generateDifferentialAnalysis reportId input store narrative medgemma =
      Except.ok out) :
    out.narrativeCalled = false ∧
    out.response.rankedDifferentials = c.rankedDifferentials ∧
    out.response.status = c.status ∧
    out.response.message = c.message ∧
    out.response.differentialSource = some c.source ∧
    out.medgemmaCalled = true := by
  cases he : analyzeThirdOpCase input with
  | error e =>
    unfold generateDifferentialAnalysis at h
    rw [he] at h
    simp at h
  | ok d =>
    rw [gda_cached reportId input store narrative medgemma c d he hc] at h
    injection h with h'
    subst h'
    exact ⟨rfl, rfl, rfl, rfl, rfl, rfl⟩

/-- The persisted record used by the C2 cache-hit scenario. -/
def c2Record : StoredRecord :=
  { status := "pathological"
    message := "cached message"
    rankedDifferentials :=
      [{ condition := "IgA nephropathy", likelihood := "High", reasoning := "cached reasoning" }]
    source := "llm"
    llmInsights :=
      some { overallSummary := "cached-summary", rankedConcerns := [], doctorQuestions := [] } }

/-- A store holding `c2Record` under the key `case-1`. -/
def c2Store : Store := fun k => if k = "case-1" then some c2Record else none

/-- A cache-hit orchestrator run in which the clinical-reasoning call fails. -/
def c2Run : Except String OrchestraOut :=
  generateDifferentialAnalysis "case-1" scenarioB c2Store (Except.error "unused")
    (Except.error "mg-down")

/-- The empty persistence store. -/
def emptyStore : Store := fun _ => none

/-- A successful narrative payload for the two-call C2 scenario. -/
def c2Payload : DiffPayload :=
  { status := "pathological"
    message := "llm message"
    rankedDifferentials :=
      [{ condition := "IgA nephropathy", likelihood := "High", reasoning := "llm reasoning" }] }

/-- First (fresh) orchestrator call of the two-call C2 scenario. -/
def c2FreshRun : Except String OrchestraOut :=
  generateDifferentialAnalysis "case-2" scenarioB emptyStore (Except.ok c2Payload)
    (Except.error "mg-down")

/-- Fallback-free projection of an orchestrator run (used to name the concrete output
of a run in closed statements). -/
def exceptGetD (e : Except String OrchestraOut) (d : OrchestraOut) : OrchestraOut :=
  match e with
  | Except.ok x => x
  | Except.error _ => d

/-- An inert `OrchestraOut` used only as the default of `exceptGetD`. -/
def dummyOut : OrchestraOut :=
  { response :=
      { riskTier := "", decision := "", humanEscalation := false, confidence := 0
        clinicalIndicators := { abnormalValues := [], criticalFlags := [] }
        rankedDifferentials := [], status := "", message := "", differentialSource := none
        llmInsights := LLM_INSIGHTS_FALLBACK, concerns := [], explanation := ""
        explanationSource := "", recommendedActions := [] }
    store := fun _ => none
    narrativeCalled := false
    medgemmaCalled := false }

/-- The store left behind by the first (fresh) call of the two-call C2 scenario. -/
def c2Store2 : Store := (exceptGetD c2FreshRun dummyOut).store

/-- Second orchestrator call for the same case identifier, now hitting the cache. -/
def c2SecondRun : Except String OrchestraOut :=
  generateDifferentialAnalysis "case-2" scenarioB c2Store2 (Except.error "unused")
    (Except.error "mg-down")

/-- **C2 counterexample.** A cached record with stored `llmInsights`
(`overallSummary = "cached-summary"`) exists, yet the cache-hit run still invokes the
clinical-reasoning generator (`medgemmaCalled = true`) and returns the reasoning
fallback insights instead of the record's insights — so the record's `llmInsights` is
not reused verbatim and an external call does happen on the cached path.  Moreover, in
a two-call scenario the first (fresh) call's `differentialSource` is absent (`none`)
while the second (cached) call returns `some "llm"`, so the second call's
`differentialSource` is not identical to the first call's. -/
theorem C2_counterexample :
    c2Run.map (fun o => (o.medgemmaCalled, o.response.llmInsights.summary)) =
      Except.ok (true, "Clinical reasoning unavailable. Rule-based analysis completed.") ∧
    (c2Store "case-1").map (fun r => r.llmInsights.map StoredInsights.overallSummary) =
      some (some "cached-summary") ∧
    ("Clinical reasoning unavailable. Rule-based analysis completed." : String) ≠
      "cached-summary" ∧
    c2FreshRun.map (fun o => o.response.differentialSource) = Except.ok none ∧
    c2SecondRun.map (fun o => o.response.differentialSource) =
      Except.ok (some "llm") ∧
    ((none : Option String) ≠ some "llm") := by
  refine ⟨rfl, rfl, by simp, rfl, rfl, by simp⟩

def c2Out : OrchestraOut := exceptGetD c2Run dummyOut

/-- The cached payload visible through `getCachedDifferential` in the C2 scenario. -/
def c2Cached : CachedDiff :=
  { status := "pathological"
    message := "cached message"
    rankedDifferentials :=
      [{ condition := "IgA nephropathy", likelihood := "High", reasoning := "cached reasoning" }]
    source := "llm"
    llmInsights :=
      some { overallSummary := "cached-summary", rankedConcerns := [], doctorQuestions := [] } }

/-- Witness for the amended C2 on the concrete cache-hit run. -/
theorem C2_witness :
    c2Out.narrativeCalled = false ∧
    c2Out.response.rankedDifferentials = c2Cached.rankedDifferentials ∧
    c2Out.response.status = c2Cached.status ∧
    c2Out.response.message = c2Cached.message ∧
    c2Out.response.differentialSource = some c2Cached.source ∧
    c2Out.medgemmaCalled = true :=
  C2_cached_reuse "case-1" scenarioB c2Store (Except.error "unused")
    (Except.error "mg-down") c2Cached c2Out rfl rfl

/-- **C7 (amended).** On a cache miss with a failing narrative call, the orchestrator
never propagates the failure; it derives the rule-based differential from the engine's
ranked scores with the High/Moderate/Low mapping at thresholds 0.6 and 0.35, returns a
non-empty `rankedDifferentials`, and persists the record tagged
`source = "rules_fallback"`; the response's own `differentialSource` field, however, is
absent (`none`) on the fallback call itself. -/
theorem C7_rules_fallback (reportId : String) (input : EngineInput) (store : Store)
    (medgemma : Except String MedGemmaResult) (e : String) (d : Decision)
    (hd : analyzeThirdOpCase input = Except.ok d)
    (hmiss : getCachedDifferential store reportId = none) :
    (∀ err, generateDifferentialAnalysis reportId input store (Except.error e) medgemma ≠
      Except.error err) ∧
    ∀ out, generateDifferentialAnalysis reportId input store (Except.error e) medgemma =
        Except.ok out →
      out.response.rankedDifferentials = (d.rankedDifferentials.take 5).map fallbackEntry ∧
      (∀ item : DiffItem, fallbackEntry item =
        { condition := if item.condition = "" then "Consideration" else item.condition
          likelihood := if (0.6:ℚ) ≤ item.confidence then "High"
            else if (0.35:ℚ) ≤ item.confidence then "Moderate" else "Low"
          reasoning := if item.rationale = "" then "" else item.rationale }) ∧
      out.response.rankedDifferentials ≠ [] ∧
      (out.store reportId).map StoredRecord.source = some "rules_fallback" ∧
      out.response.differentialSource = none ∧
      out.narrativeCalled = true := by
  constructor
  · intro err hcontra
    rw [gda_miss_fallback reportId input store medgemma e d hd hmiss] at hcontra
    cases hcontra
  · intro out h
    rw [gda_miss_fallback reportId input store medgemma e d hd hmiss] at h
    injection h with h'
    subst h'
    refine ⟨rfl, fun item => rfl, ?_, ?_, rfl, rfl⟩
    · show (d.rankedDifferentials.take 5).map fallbackEntry ≠ []
      intro hnil
      have hlen := congrArg List.length hnil
      rw [List.length_map, List.length_take,
        engine_rankedDifferentials_length input d hd] at hlen
      simp at hlen
    · cases medgemma with
      | ok mg =>
        dsimp only [finishAnalysis]
        simp [saveLlmInsights, saveDifferential]
      | error err2 =>
        dsimp only [finishAnalysis]
        simp [saveDifferential]

/-- A cache-miss orchestrator run in which both external calls fail. -/
def c7Run : Except String OrchestraOut :=
  generateDifferentialAnalysis "case-7" scenarioB emptyStore (Except.error "llm-down")
    (Except.error "mg-down")

/-- **C7 counterexample.** On the concrete fallback run, the returned response's
`differentialSource` is absent (`none`), not `"rules_fallback"` — the tag is only
persisted, not returned, on the fallback call itself. -/
theorem C7_counterexample :
    c7Run.map (fun o => o.response.differentialSource) = Except.ok none ∧
    ((Except.ok (none : Option String) : Except String (Option String)) ≠
      Except.ok (some ("rules_fallback" : String))) := by
  refine ⟨rfl, by simp⟩

/-- Witness for the amended C7: the concrete fallback run does not propagate the
narrative failure. -/
theorem C7_witness :
    generateDifferentialAnalysis "case-7" scenarioB emptyStore (Except.error "llm-down")
      (Except.error "mg-down") ≠ Except.error "llm-down" :=
  (C7_rules_fallback "case-7" scenarioB emptyStore (Except.error "mg-down") "llm-down"
    (runEngine (normalizeInput scenarioB)) rfl rfl).1 "llm-down"

end ThirdOp
